import Mathlib

/-!
Shallow embedding of `geopandas/tools.py` (the `overlay` spatial-overlay
pipeline and its helper `_extract_rings`).

The geometric primitives (shapely) are out of scope for the source and are
modelled as an abstract `Kernel` of functions over an opaque geometry type
`G`.  Attribute records (pandas `Series` rows) are modelled as association
lists from column labels to values; a `GeoDataFrame` is its list of rows
plus its column schema and its designated geometry-column name.  Python
exceptions become an `Except Err _` result: `ValueError` on a bad `how`
becomes `Err.invalidRelation`, the `TypeError` of `_extract_rings` becomes
`Err.unsupportedGeometryType`, failure of both union primitives becomes
`Err.unionFailure`, and the remaining library exceptions (missing labels,
non-geometry values where a geometry is required) become `Err.otherError`.
-/

set_option autoImplicit false

namespace GeoOverlay

/-- Geometry type tags as reported by the shapely `.type` attribute; every
type other than `Polygon`/`MultiPolygon` is collapsed into `Other` since the
source only tests membership in `['Polygon', 'MultiPolygon']`. -/
inductive GeomType where
  | Polygon
  | MultiPolygon
  | Other
deriving DecidableEq, Repr

/-- Errors of the pipeline, following the spec's taxonomy.  `otherError`
stands for the remaining Python exceptions (missing label on a mandatory
`Series.drop`, attribute access on a malformed row, ...). -/
inductive Err where
  | invalidRelation
  | unsupportedGeometryType
  | unionFailure
  | otherError
deriving DecidableEq, Repr

/-- The external geometry kernel (shapely), §6 of the spec: an opaque
geometry type `G` together with the primitives the source consumes.
`unary_union` and `binary_union` return `none` when the corresponding
shapely call would raise. -/
structure Kernel (G : Type) where
  geom_type : G → GeomType
  geoms : G → List G
  is_valid : G → Bool
  buffer0 : G → G
  exterior : G → G
  interiors : G → List G
  multiLineString : List G → G
  unary_union : List G → Option G
  binary_union : G → G → Option G
  polygonize : G → List G
  representative_point : G → G
  intersects : G → G → Bool

/-- A cell value of an attribute record: a geometry, an opaque attribute
payload, an integer (produced by `reset_index`), or null (`None`). -/
inductive Val (G : Type) where
  | geom : G → Val G
  | attr : String → Val G
  | idx : Nat → Val G
  | null : Val G
deriving DecidableEq, Repr

/-- A row (pandas `Series`): an ordered association list from column labels
to values; duplicate labels are possible, as in pandas. -/
abbrev Row (G : Type) := List (String × Val G)

/-- A `GeoDataFrame`: its rows (as yielded by `iterrows`), its column
schema `columns`, and its `_geometry_column_name`. -/
structure GeoDataFrame (G : Type) where
  rows : List (Row G)
  columns : List String
  geometryColumnName : String
deriving Repr

/-- Label lookup in a row; `feat.geometry` and `cand['geometry']` in the
source both resolve the literal label `geometry` this way. -/
def rowGet {G : Type} (r : Row G) (k : String) : Option (Val G) :=
  (r.find? (fun p => p.1 == k)).map (fun p => p.2)

/-- The rings of one polygon, `tools.py` lines 28-32 / 34-38: repair with a
zero-width buffer when invalid, then the exterior ring followed by the
interior rings. -/
def polygonRings {G : Type} (K : Kernel G) (p : G) : List G :=
  let q := if K.is_valid p then p else K.buffer0 p
  K.exterior q :: K.interiors q

/-- Ring extraction for one feature, `tools.py` lines 21-38: a `TypeError`
when the geometry type is neither `Polygon` nor `MultiPolygon`; for a
multi-polygon (the only remaining case with a `geoms` attribute) the rings
of each constituent polygon in order, otherwise the rings of the polygon
itself.  A row without a geometry value at label `geometry` is the
`AttributeError` case, `Err.otherError`. -/
def extractRingsFeature {G : Type} (K : Kernel G) (r : Row G) : Except Err (List G) :=
  match rowGet r "geometry" with
  | some (Val.geom g) =>
    if K.geom_type g = GeomType.Polygon ∨ K.geom_type g = GeomType.MultiPolygon then
      if K.geom_type g = GeomType.MultiPolygon then
        Except.ok ((K.geoms g).flatMap (polygonRings K))
      else
        Except.ok (polygonRings K g)
    else
      Except.error Err.unsupportedGeometryType
  | _ => Except.error Err.otherError

/-- The feature loop of `_extract_rings`, accumulating rings in collection
order and aborting at the first failing feature. -/
def extractRingsList {G : Type} (K : Kernel G) : List (Row G) → Except Err (List G)
  | [] => Except.ok []
  | r :: rest =>
    match extractRingsFeature K r with
    | Except.error e => Except.error e
    | Except.ok rs =>
      match extractRingsList K rest with
      | Except.error e => Except.error e
      | Except.ok rest2 => Except.ok (rs ++ rest2)

/-- `_extract_rings(df)`, `tools.py` lines 6-40. -/
def extract_rings {G : Type} (K : Kernel G) (df : GeoDataFrame G) : Except Err (List G) :=
  extractRingsList K df.rows

/-- The `allowed_hows` list of `overlay`, `tools.py` lines 49-55. -/
def allowed_hows : List String :=
  ["intersection", "union", "identity", "symmetric_difference", "difference"]

/-- Arrangement building, `tools.py` lines 68-75: try the fast
`unary_union` of the two multi-line-strings; on any failure fall back to
the slow pairwise `mls1.union(mls2)`; fail only when the fallback also
fails. -/
def buildArrangement {G : Type} (K : Kernel G) (mls1 mls2 : G) : Except Err G :=
  match K.unary_union [mls1, mls2] with
  | some mm => Except.ok mm
  | none =>
    match K.binary_union mls1 mls2 with
    | some mm => Except.ok mm
    | none => Except.error Err.unionFailure

/-- The per-layer linear scan of `tools.py` lines 85-100: iterate the rows
in collection order, stop at the first row whose geometry intersects the
representative point `cent`; `cent.intersects(cand['geometry'])` on a row
without a geometry value raises, i.e. `Err.otherError`. -/
def scanHits {G : Type} (K : Kernel G) (cent : G) :
    List (Row G) → Except Err (Bool × Option (Row G))
  | [] => Except.ok (false, none)
  | r :: rest =>
    match rowGet r "geometry" with
    | some (Val.geom g) =>
      if K.intersects cent g then Except.ok (true, some r) else scanHits K cent rest
    | _ => Except.error Err.otherError

/-- Deduplication of labels keeping the first occurrence, as
`dict.fromkeys` does. -/
def dedupKeysAux (seen : List String) : List String → List String
  | [] => []
  | k :: rest =>
    if k ∈ seen then dedupKeysAux seen rest else k :: dedupKeysAux (k :: seen) rest

/-- Labels of `dict.fromkeys(cols, None)`: first occurrences, in order. -/
def dedupKeys (cols : List String) : List String :=
  dedupKeysAux [] cols

/-- `pd.Series(dict.fromkeys(df.columns, None))`, `tools.py` lines 120/122:
the null-record over a schema. -/
def nullRecord (G : Type) (cols : List String) : Row G :=
  (dedupKeys cols).map (fun c => (c, Val.null))

/-- `prop = cand` when the scan hit, else the null-record over the layer's
schema (`tools.py` lines 119-122). -/
def gatherProps {G : Type} (df : GeoDataFrame G) (p : Option (Row G)) : Row G :=
  match p with
  | some r => r
  | none => nullRecord G df.columns

/-- `Series.drop(label, inplace=True)`: removes every entry carrying the
label; raises (`ValueError` in the pandas of the source's era) when the
label is absent. -/
def seriesDrop {G : Type} (s : Row G) (label : String) : Except Err (Row G) :=
  if s.any (fun p => p.1 == label) then
    Except.ok (s.filter (fun p => p.1 ≠ label))
  else
    Except.error Err.otherError

/-- `out_series['geometry'] = newpoly`: overwrite every entry carrying the
label when present, else append a new entry at the end. -/
def seriesSet {G : Type} (s : Row G) (label : String) (v : Val G) : Row G :=
  if s.any (fun p => p.1 == label) then
    s.map (fun p => if p.1 == label then (p.1, v) else p)
  else
    s ++ [(label, v)]

/-- Candidate assembly, `tools.py` lines 118-137: concatenate the (possibly
null-filled) records, drop layer1's geometry column (an uncaught error when
absent), drop layer2's geometry column with the error swallowed
(`except ValueError: pass`), then attach the face under label `geometry`. -/
def assembleCandidate {G : Type} (df1 df2 : GeoDataFrame G) (p1 p2 : Option (Row G))
    (newpoly : G) : Except Err (Row G) :=
  match seriesDrop (gatherProps df1 p1 ++ gatherProps df2 p2) df1.geometryColumnName with
  | Except.error e => Except.error e
  | Except.ok out1 =>
    let out2 :=
      match seriesDrop out1 df2.geometryColumnName with
      | Except.ok o => o
      | Except.error _ => out1
    Except.ok (seriesSet out2 "geometry" (Val.geom newpoly))

/-- The decision `hit` of `tools.py` lines 102-113 as a function of the
relation and the two scan results. -/
def hitDecision (how : String) (df1_hit df2_hit : Bool) : Bool :=
  if how == "intersection" && (df1_hit && df2_hit) then true
  else if how == "union" && (df1_hit || df2_hit) then true
  else if how == "identity" && df1_hit then true
  else if how == "symmetric_difference" && !(df1_hit && df2_hit) then true
  else if how == "difference" && (df1_hit && !df2_hit) then true
  else false

/-- Classification scans of one face, `tools.py` lines 81-100: compute the
representative point and scan both layers. -/
def faceHits {G : Type} (K : Kernel G) (df1 df2 : GeoDataFrame G) (newpoly : G) :
    Except Err (Bool × Option (Row G) × Bool × Option (Row G)) :=
  match scanHits K (K.representative_point newpoly) df1.rows with
  | Except.error e => Except.error e
  | Except.ok (h1, p1) =>
    match scanHits K (K.representative_point newpoly) df2.rows with
    | Except.error e => Except.error e
    | Except.ok (h2, p2) => Except.ok (h1, p1, h2, p2)

/-- One iteration of the face loop, `tools.py` lines 80-138: `none` when
the face is skipped (`if not hit: continue`), `some row` when it is
assembled into the collection. -/
def processFace {G : Type} (K : Kernel G) (df1 df2 : GeoDataFrame G) (how : String)
    (newpoly : G) : Except Err (Option (Row G)) :=
  match faceHits K df1 df2 newpoly with
  | Except.error e => Except.error e
  | Except.ok (h1, p1, h2, p2) =>
    if hitDecision how h1 h2 then
      match assembleCandidate df1 df2 p1 p2 newpoly with
      | Except.error e => Except.error e
      | Except.ok row => Except.ok (some row)
    else
      Except.ok none

/-- The face loop over the polygonized faces, in face-recovery order. -/
def classifyFaces {G : Type} (K : Kernel G) (df1 df2 : GeoDataFrame G) (how : String) :
    List G → Except Err (List (Row G))
  | [] => Except.ok []
  | p :: rest =>
    match processFace K df1 df2 how p with
    | Except.error e => Except.error e
    | Except.ok r =>
      match classifyFaces K df1 df2 how rest with
      | Except.error e => Except.error e
      | Except.ok rest2 =>
        match r with
        | some row => Except.ok (row :: rest2)
        | none => Except.ok rest2

/-- Columns of `GeoDataFrame(collection)`: the union of the rows' labels in
order of first appearance. -/
def frameColumns {G : Type} (collection : List (Row G)) : List String :=
  dedupKeys (collection.flatMap (fun r => r.map (fun p => p.1)))

/-- The name `reset_index()` gives to the materialized default index:
`index`, unless a column of that name already exists, in which case
`level_0`. -/
def resetIndexColumnName (cols : List String) : String :=
  if "index" ∈ cols then "level_0" else "index"

/-- `GeoDataFrame(collection).reset_index()` followed by
`gdf.drop('index', axis=1, inplace=True)`, `tools.py` lines 140-142: build
the frame over the collection, materialize the default 0..n-1 index as a
leading column, then drop every column labelled `index`. -/
def finalizeFrame {G : Type} (collection : List (Row G)) : GeoDataFrame G :=
  let cols := frameColumns collection
  let nm := resetIndexColumnName cols
  { rows :=
      (collection.enum.map (fun p => (nm, Val.idx p.1) :: p.2)).map
        (fun r => r.filter (fun p => p.1 ≠ "index")),
    columns := (nm :: cols).filter (fun c => c ≠ "index"),
    geometryColumnName := "geometry" }

/-- `overlay(df1, df2, how)`, `tools.py` lines 42-143. -/
def overlay {G : Type} (K : Kernel G) (df1 df2 : GeoDataFrame G) (how : String) :
    Except Err (GeoDataFrame G) :=
  if how ∈ allowed_hows then
    match extract_rings K df1 with
    | Except.error e => Except.error e
    | Except.ok rings1 =>
      match extract_rings K df2 with
      | Except.error e => Except.error e
      | Except.ok rings2 =>
        match buildArrangement K (K.multiLineString rings1) (K.multiLineString rings2) with
        | Except.error e => Except.error e
        | Except.ok mm =>
          match classifyFaces K df1 df2 how (K.polygonize mm) with
          | Except.error e => Except.error e
          | Except.ok collection => Except.ok (finalizeFrame collection)
  else
    Except.error Err.invalidRelation

/-- A row carries a geometry value under the literal label `geometry`. -/
def rowHasGeom {G : Type} (r : Row G) : Bool :=
  match rowGet r "geometry" with
  | some (Val.geom _) => true
  | _ => false

/-- The geometry type of a row's geometry, when the row has one. -/
def rowGeomType {G : Type} (K : Kernel G) (r : Row G) : Option GeomType :=
  match rowGet r "geometry" with
  | some (Val.geom g) => some (K.geom_type g)
  | _ => none

/-- A row has a geometry and that geometry is a polygon or multi-polygon. -/
def rowPolyTyped {G : Type} (K : Kernel G) (r : Row G) : Bool :=
  match rowGet r "geometry" with
  | some (Val.geom g) =>
    decide (K.geom_type g = GeomType.Polygon ∨ K.geom_type g = GeomType.MultiPolygon)
  | _ => false

/-- Every row of the frame is polygon-typed. -/
def dfPolyTyped {G : Type} (K : Kernel G) (df : GeoDataFrame G) : Bool :=
  df.rows.all (rowPolyTyped K)

/-- The predicate the classifier's scan tests on a row: its geometry
intersects the probe point (false on a malformed row). -/
def rowHit {G : Type} (K : Kernel G) (cent : G) (r : Row G) : Bool :=
  match rowGet r "geometry" with
  | some (Val.geom g) => K.intersects cent g
  | _ => false

/-- A geometry is valid, constituent-wise for multi-polygons. -/
def geomAllValid {G : Type} (K : Kernel G) (g : G) : Bool :=
  if K.geom_type g = GeomType.MultiPolygon then (K.geoms g).all K.is_valid
  else K.is_valid g

/-- Every geometry of the frame is already valid (no repair needed). -/
def dfAllValid {G : Type} (K : Kernel G) (df : GeoDataFrame G) : Bool :=
  df.rows.all (fun r =>
    match rowGet r "geometry" with
    | some (Val.geom g) => geomAllValid K g
    | _ => true)

/-- The same kernel with a different zero-buffer repair primitive. -/
def setBuffer {G : Type} (K : Kernel G) (b : G → G) : Kernel G :=
  ⟨K.geom_type, K.geoms, K.is_valid, b, K.exterior, K.interiors, K.multiLineString,
    K.unary_union, K.binary_union, K.polygonize, K.representative_point, K.intersects⟩

/-- The rings of one (multi-)polygon geometry: the constituent polygons in
order for a multi-polygon, the polygon itself otherwise. -/
def ringsOfGeom {G : Type} (K : Kernel G) (g : G) : List G :=
  if K.geom_type g = GeomType.MultiPolygon then (K.geoms g).flatMap (polygonRings K)
  else polygonRings K g

/-- The rings one row contributes ([] on a malformed row). -/
def specRowRings {G : Type} (K : Kernel G) (r : Row G) : List G :=
  match rowGet r "geometry" with
  | some (Val.geom g) => ringsOfGeom K g
  | _ => []

/-- The spec's description of ring extraction (§4.1): the flat ordered
sequence of rings over features in collection order, each polygon
contributing its exterior ring followed by its interior rings, constituent
polygons of a multi-polygon visited in order.  Stated independently of
`extract_rings` to compare the two. -/
def extractRingsSpec {G : Type} (K : Kernel G) (df : GeoDataFrame G) : List G :=
  df.rows.flatMap (specRowRings K)

/-- The concatenated record of `tools.py` line 123. -/
def concatProps {G : Type} (df1 df2 : GeoDataFrame G) (p1 p2 : Option (Row G)) : Row G :=
  gatherProps df1 p1 ++ gatherProps df2 p2

/-- A concrete geometry kernel over `Nat` geometries, for evaluating the
pipeline on closed inputs: `7` is a non-polygonal geometry, `8` is a
multi-polygon with parts `[1, 2]`, `9` is an invalid polygon, everything
else is a valid polygon; a probe point intersects exactly the geometry
equal to it. -/
def testKernel : Kernel Nat :=
  ⟨fun g => if g == 7 then GeomType.Other
            else if g == 8 then GeomType.MultiPolygon else GeomType.Polygon,
    fun g => if g == 8 then [1, 2] else [],
    fun g => g != 9,
    fun g => g + 50,
    fun g => g,
    fun _ => [],
    fun l => l.foldl (· + ·) 0,
    fun l => some (l.foldl (· + ·) 0),
    fun a b => some (a + b),
    fun m => [m],
    fun g => g,
    fun c g => c == g⟩

/-- `testKernel` with a failing fast union and a working robust union. -/
def fallbackKernel : Kernel Nat :=
  ⟨testKernel.geom_type, testKernel.geoms, testKernel.is_valid, testKernel.buffer0,
    testKernel.exterior, testKernel.interiors, testKernel.multiLineString,
    fun _ => none, fun a b => some (a + b), testKernel.polygonize,
    testKernel.representative_point, testKernel.intersects⟩

/-- A layer with a single unit feature: one attribute column that happens
to be named `index`, and a polygon geometry `3`. -/
def df1W : GeoDataFrame Nat :=
  ⟨[[("index", Val.attr "i0"), ("geometry", Val.geom 3)]], ["index", "geometry"], "geometry"⟩

/-- An empty layer with schema `[b, geometry]`. -/
def df2W : GeoDataFrame Nat :=
  ⟨[], ["b", "geometry"], "geometry"⟩

/-- A layer containing a feature whose geometry `7` is not polygonal under
`testKernel`. -/
def dfBadW : GeoDataFrame Nat :=
  ⟨[[("geometry", Val.geom 7)]], ["geometry"], "geometry"⟩

/-- The frame `overlay testKernel df1W df2W "union"` produces. -/
def outW : GeoDataFrame Nat :=
  ⟨[[("level_0", Val.idx 0), ("b", Val.null), ("geometry", Val.geom 3)]],
    ["level_0", "b", "geometry"], "geometry"⟩

/-- `seriesDrop` only fails with the missing-label error. -/
theorem seriesDrop_error {G : Type} (s : Row G) (label : String) (e : Err)
    (h : seriesDrop s label = Except.error e) : e = Err.otherError := by
  unfold seriesDrop at h
  split at h
  · simp at h
  · simp only [Except.error.injEq] at h
    exact h.symm

/-- Ring extraction of one feature fails only with the unsupported-type
error or the malformed-row error. -/
theorem extractRingsFeature_error {G : Type} (K : Kernel G) (r : Row G) (e : Err)
    (h : extractRingsFeature K r = Except.error e) :
    e = Err.unsupportedGeometryType ∨ e = Err.otherError := by
  unfold extractRingsFeature at h
  split at h
  · split at h
    · split at h <;> simp at h
    · simp only [Except.error.injEq] at h
      exact Or.inl h.symm
  · simp only [Except.error.injEq] at h
    exact Or.inr h.symm

/-- The feature loop of `_extract_rings` fails only with the
unsupported-type error or the malformed-row error. -/
theorem extractRingsList_error {G : Type} (K : Kernel G) (rows : List (Row G)) (e : Err)
    (h : extractRingsList K rows = Except.error e) :
    e = Err.unsupportedGeometryType ∨ e = Err.otherError := by
  induction rows with
  | nil => simp [extractRingsList] at h
  | cons r rest ih =>
    unfold extractRingsList at h
    split at h
    · next heq =>
      simp only [Except.error.injEq] at h
      exact h ▸ extractRingsFeature_error K r _ heq
    · split at h
      · next heq =>
        simp only [Except.error.injEq] at h
        exact ih (h ▸ heq)
      · simp at h

/-- The classifier's scan fails only with the malformed-row error. -/
theorem scanHits_error {G : Type} (K : Kernel G) (cent : G) (rows : List (Row G)) (e : Err)
    (h : scanHits K cent rows = Except.error e) : e = Err.otherError := by
  induction rows with
  | nil => simp [scanHits] at h
  | cons r rest ih =>
    unfold scanHits at h
    split at h
    · split at h
      · simp at h
      · exact ih h
    · simp only [Except.error.injEq] at h
      exact h.symm

/-- `faceHits` fails only with the malformed-row error. -/
theorem faceHits_error {G : Type} (K : Kernel G) (df1 df2 : GeoDataFrame G) (poly : G)
    (e : Err) (h : faceHits K df1 df2 poly = Except.error e) : e = Err.otherError := by
  unfold faceHits at h
  split at h
  · next heq =>
    simp only [Except.error.injEq] at h
    exact h ▸ scanHits_error K _ _ _ heq
  · split at h
    · next heq =>
      simp only [Except.error.injEq] at h
      exact h ▸ scanHits_error K _ _ _ heq
    · simp at h

/-- Candidate assembly fails only with the missing-label error of the
mandatory first drop. -/
theorem assembleCandidate_error {G : Type} (df1 df2 : GeoDataFrame G)
    (p1 p2 : Option (Row G)) (poly : G) (e : Err)
    (h : assembleCandidate df1 df2 p1 p2 poly = Except.error e) : e = Err.otherError := by
  unfold assembleCandidate at h
  split at h
  · next heq =>
    simp only [Except.error.injEq] at h
    exact h ▸ seriesDrop_error _ _ _ heq
  · simp at h

/-- `processFace` fails only with the malformed-row / missing-label
error. -/
theorem processFace_error {G : Type} (K : Kernel G) (df1 df2 : GeoDataFrame G)
    (how : String) (poly : G) (e : Err)
    (h : processFace K df1 df2 how poly = Except.error e) : e = Err.otherError := by
  unfold processFace at h
  split at h
  · next heq =>
    simp only [Except.error.injEq] at h
    exact h ▸ faceHits_error K df1 df2 poly _ heq
  · split at h
    · split at h
      · next heq =>
        simp only [Except.error.injEq] at h
        exact h ▸ assembleCandidate_error df1 df2 _ _ poly _ heq
      · simp at h
    · simp at h

/-- The face loop fails only with the malformed-row / missing-label
error. -/
theorem classifyFaces_error {G : Type} (K : Kernel G) (df1 df2 : GeoDataFrame G)
    (how : String) (faces : List G) (e : Err)
    (h : classifyFaces K df1 df2 how faces = Except.error e) : e = Err.otherError := by
  induction faces with
  | nil => simp [classifyFaces] at h
  | cons p rest ih =>
    unfold classifyFaces at h
    split at h
    · next heq =>
      simp only [Except.error.injEq] at h
      exact h ▸ processFace_error K df1 df2 how p _ heq
    · split at h
      · next heq =>
        simp only [Except.error.injEq] at h
        exact ih (h ▸ heq)
      · split at h <;> simp at h

/-- Arrangement building fails only with the union-failure error, and only
when both union primitives fail. -/
theorem buildArrangement_error_eq {G : Type} (K : Kernel G) (a b : G) (e : Err)
    (h : buildArrangement K a b = Except.error e) :
    e = Err.unionFailure ∧ K.unary_union [a, b] = none ∧ K.binary_union a b = none := by
  unfold buildArrangement at h
  split at h
  · simp at h
  · next hu =>
    split at h
    · simp at h
    · next hb =>
      simp only [Except.error.injEq] at h
      exact ⟨h.symm, hu, hb⟩

/-- On a polygon-typed feature, extraction succeeds and yields exactly the
rings of its geometry. -/
theorem extractRingsFeature_typed {G : Type} (K : Kernel G) (r : Row G) (g : G)
    (hg : rowGet r "geometry" = some (Val.geom g))
    (ht : K.geom_type g = GeomType.Polygon ∨ K.geom_type g = GeomType.MultiPolygon) :
    extractRingsFeature K r = Except.ok (ringsOfGeom K g) := by
  unfold extractRingsFeature ringsOfGeom
  rw [hg]
  dsimp only
  rw [if_pos ht]
  by_cases hmp : K.geom_type g = GeomType.MultiPolygon <;> simp [hmp]

/-- Unfolding of `rowPolyTyped`. -/
theorem rowPolyTyped_iff {G : Type} (K : Kernel G) (r : Row G) :
    rowPolyTyped K r = true ↔
      ∃ g, rowGet r "geometry" = some (Val.geom g) ∧
        (K.geom_type g = GeomType.Polygon ∨ K.geom_type g = GeomType.MultiPolygon) := by
  unfold rowPolyTyped
  split
  · next g heq =>
    simp only [decide_eq_true_eq]
    constructor
    · intro ht
      exact ⟨g, heq, ht⟩
    · rintro ⟨g2, hg2, ht2⟩
      rw [heq] at hg2
      simp only [Option.some.injEq, Val.geom.injEq] at hg2
      exact hg2 ▸ ht2
  · next hne =>
    simp only [Bool.false_eq_true, false_iff]
    rintro ⟨g, hg, _⟩
    exact hne g hg

/-- On a frame of polygon-typed features the feature loop succeeds and
produces the flat ring sequence of the spec, feature by feature. -/
theorem extractRingsList_typed {G : Type} (K : Kernel G) (rows : List (Row G))
    (hwf : ∀ r ∈ rows, rowPolyTyped K r = true) :
    extractRingsList K rows = Except.ok (rows.flatMap (specRowRings K)) := by
  induction rows with
  | nil => simp [extractRingsList]
  | cons r rest ih =>
    obtain ⟨g, hg, ht⟩ := (rowPolyTyped_iff K r).mp (hwf r (List.mem_cons_self r rest))
    have hfeat := extractRingsFeature_typed K r g hg ht
    have hrest := ih (fun x hx => hwf x (List.mem_cons_of_mem r hx))
    unfold extractRingsList
    rw [hfeat, hrest]
    simp [specRowRings, hg]

/-- The scan of the classifier is the first-match search `List.find?` over
the rows, provided every row carries a geometry. -/
theorem scanHits_char {G : Type} (K : Kernel G) (cent : G) (rows : List (Row G))
    (hwf : ∀ r ∈ rows, rowHasGeom r = true) :
    scanHits K cent rows = Except.ok
      (match rows.find? (rowHit K cent) with
       | some r => (true, some r)
       | none => (false, none)) := by
  induction rows with
  | nil => simp [scanHits]
  | cons r rest ih =>
    have hr : rowHasGeom r = true := hwf r (List.mem_cons_self r rest)
    unfold rowHasGeom at hr
    unfold scanHits
    split
    · next g heq =>
      have hhit : rowHit K cent r = K.intersects cent g := by
        unfold rowHit
        rw [heq]
      by_cases hint : K.intersects cent g = true
      · rw [if_pos hint]
        rw [List.find?_cons_of_pos _ (hhit ▸ hint)]
      · rw [if_neg hint]
        rw [List.find?_cons_of_neg _ (by simp [hhit, hint])]
        exact ih (fun x hx => hwf x (List.mem_cons_of_mem r hx))
    · next hne =>
      split at hr
      · next v heq2 =>
        exact absurd heq2 (by intro hc; exact hne _ hc)
      · simp at hr

/-- A face is skipped exactly when the decision of `tools.py` lines 102-113
on its two scan results is negative. -/
theorem processFace_skip_iff {G : Type} (K : Kernel G) (df1 df2 : GeoDataFrame G)
    (how : String) (poly : G) (h1 h2 : Bool) (p1 p2 : Option (Row G))
    (hfh : faceHits K df1 df2 poly = Except.ok (h1, p1, h2, p2)) :
    (processFace K df1 df2 how poly = Except.ok none ↔ hitDecision how h1 h2 = false) := by
  unfold processFace
  rw [hfh]
  dsimp only
  by_cases hd : hitDecision how h1 h2 = true
  · rw [if_pos hd]
    simp only [hd]
    constructor
    · intro hcontra
      split at hcontra <;> simp at hcontra
    · intro hcontra
      simp at hcontra
  · rw [if_neg hd]
    simp [Bool.eq_false_iff.mpr hd]

/-- A successful `overlay` returns the finalized frame of some classified
collection. -/
theorem overlay_ok_finalize {G : Type} (K : Kernel G) (df1 df2 : GeoDataFrame G)
    (how : String) (gdf : GeoDataFrame G)
    (h : overlay K df1 df2 how = Except.ok gdf) :
    ∃ collection, gdf = finalizeFrame collection := by
  unfold overlay at h
  split at h
  · split at h
    · simp at h
    · split at h
      · simp at h
      · split at h
        · simp at h
        · split at h
          · simp at h
          · next collection heq =>
            simp only [Except.ok.injEq] at h
            exact ⟨collection, h.symm⟩
  · simp at h

/-- Unfolding of `rowHasGeom`. -/
theorem rowHasGeom_iff {G : Type} (r : Row G) :
    rowHasGeom r = true ↔ ∃ g, rowGet r "geometry" = some (Val.geom g) := by
  unfold rowHasGeom
  split
  · next g heq =>
    simp only [true_iff]
    exact ⟨g, heq⟩
  · next hne =>
    simp only [Bool.false_eq_true, false_iff]
    rintro ⟨g, hg⟩
    exact hne g hg

/-- C1: for every recovered face, overlay includes the face exactly when
the decision table holds for the requested relation — `intersection` on
`df1_hit && df2_hit`, `union` on `df1_hit || df2_hit`, `identity` on
`df1_hit`, `symmetric_difference` on `!(df1_hit && df2_hit)`, `difference`
on `df1_hit && !df2_hit` — and inclusion is the pure function
`hitDecision` of the triple `(df1_hit, df2_hit, relation)` alone: given the
scan results of a face, `processFace` skips it (`Except.ok none`) iff
`hitDecision` is `false`, independently of everything else. -/
theorem overlay_inclusion_decision_table :
    (∀ h1 h2 : Bool,
      hitDecision "intersection" h1 h2 = (h1 && h2) ∧
      hitDecision "union" h1 h2 = (h1 || h2) ∧
      hitDecision "identity" h1 h2 = h1 ∧
      hitDecision "symmetric_difference" h1 h2 = !(h1 && h2) ∧
      hitDecision "difference" h1 h2 = (h1 && !h2)) ∧
    (∀ (G : Type) (K : Kernel G) (df1 df2 : GeoDataFrame G) (how : String) (poly : G)
      (h1 h2 : Bool) (p1 p2 : Option (Row G)),
      faceHits K df1 df2 poly = Except.ok (h1, p1, h2, p2) →
      (processFace K df1 df2 how poly ≠ Except.ok none ↔ hitDecision how h1 h2 = true)) := by
  constructor
  · decide
  · intro G K df1 df2 how poly h1 h2 p1 p2 hfh
    rw [Ne, processFace_skip_iff K df1 df2 how poly h1 h2 p1 p2 hfh]
    simp

/-- C1 witness: a concrete face of the `Nat` kernel whose scans hit layer1
and miss layer2, with the `union` decision applied. -/
theorem overlay_inclusion_decision_table_witness :
    faceHits testKernel df1W df2W 3 =
      Except.ok (true, some [("index", Val.attr "i0"), ("geometry", Val.geom 3)], false, none) ∧
    (processFace testKernel df1W df2W "union" 3 ≠ Except.ok none ↔
      hitDecision "union" true false = true) :=
  ⟨rfl, overlay_inclusion_decision_table.2 Nat testKernel df1W df2W "union" 3 true false
    (some [("index", Val.attr "i0"), ("geometry", Val.geom 3)]) none rfl⟩

/-- C2: for every face the classifier scans a layer's features in
collection order and takes the first feature whose geometry contains the
representative point — `scanHits` is exactly the first-match search
`List.find?`, returning `(true, the hit record)` or, when nothing matches,
`(false, none)`; the record then used for the output row is the
null-record, in which every attribute of the layer's schema is null.  Both
layers go through the same `scanHits`/`gatherProps` pair, independently. -/
theorem classifier_first_match_null_fill :
    (∀ (G : Type) (K : Kernel G) (cent : G) (rows : List (Row G)),
      (∀ r ∈ rows, rowHasGeom r = true) →
      scanHits K cent rows = Except.ok
        (match rows.find? (rowHit K cent) with
         | some r => (true, some r)
         | none => (false, none))) ∧
    (∀ (G : Type) (df : GeoDataFrame G),
      gatherProps df none = nullRecord G df.columns) ∧
    (∀ (G : Type) (cols : List String) (c : String) (v : Val G),
      (c, v) ∈ nullRecord G cols → v = Val.null) := by
  refine ⟨?_, ?_, ?_⟩
  · intro G K cent rows hwf
    exact scanHits_char K cent rows hwf
  · intro G df
    rfl
  · intro G cols c v hmem
    unfold nullRecord at hmem
    obtain ⟨a, _, ha⟩ := List.mem_map.mp hmem
    exact (Prod.mk.injEq _ _ _ _ ▸ ha).2.symm ▸ rfl

/-- C2 witness: the concrete layer1 of the `Nat` kernel, probed at the
point `3` that its single feature contains. -/
theorem classifier_first_match_null_fill_witness :
    (∀ r ∈ df1W.rows, rowHasGeom r = true) ∧
    scanHits testKernel 3 df1W.rows = Except.ok
      (match df1W.rows.find? (rowHit testKernel 3) with
       | some r => (true, some r)
       | none => (false, none)) :=
  ⟨by decide, classifier_first_match_null_fill.1 Nat testKernel 3 df1W.rows (by decide)⟩

/-- C5: when the fast unary union fails, the arrangement builder always
recomputes with the pairwise binary union before propagating anything — a
robust success is silently substituted (the fast failure is never
surfaced), and a failure reaches the caller only when both primitives
fail. -/
theorem arrangement_fallback_policy :
    (∀ (G : Type) (K : Kernel G) (a b m : G),
      K.unary_union [a, b] = none → K.binary_union a b = some m →
      buildArrangement K a b = Except.ok m) ∧
    (∀ (G : Type) (K : Kernel G) (a b : G) (e : Err),
      buildArrangement K a b = Except.error e →
      e = Err.unionFailure ∧ K.unary_union [a, b] = none ∧ K.binary_union a b = none) ∧
    (∀ (G : Type) (K : Kernel G) (a b : G),
      K.unary_union [a, b] = none → K.binary_union a b = none →
      buildArrangement K a b = Except.error Err.unionFailure) := by
  refine ⟨?_, ?_, ?_⟩
  · intro G K a b m hu hb
    simp [buildArrangement, hu, hb]
  · intro G K a b e h
    exact buildArrangement_error_eq K a b e h
  · intro G K a b hu hb
    simp [buildArrangement, hu, hb]

/-- C5 witness: the `Nat` kernel whose fast union always fails and whose
robust union adds. -/
theorem arrangement_fallback_policy_witness :
    fallbackKernel.unary_union [3, 4] = none ∧
    fallbackKernel.binary_union 3 4 = some 7 ∧
    buildArrangement fallbackKernel 3 4 = Except.ok 7 :=
  ⟨rfl, rfl, arrangement_fallback_policy.1 Nat fallbackKernel 3 4 7 rfl rfl⟩

/-- C7: with identical per-face scan results, a face is skipped by
`symmetric_difference` exactly when it is not skipped by `intersection`:
the `symmetric_difference` decision is the boolean complement of the
`intersection` decision, so the emitted face set is the complement of the
intersection's. -/
theorem symmetric_difference_complements_intersection :
    (∀ h1 h2 : Bool,
      hitDecision "symmetric_difference" h1 h2 = !(hitDecision "intersection" h1 h2)) ∧
    (∀ (G : Type) (K : Kernel G) (df1 df2 : GeoDataFrame G) (poly : G)
      (h1 h2 : Bool) (p1 p2 : Option (Row G)),
      faceHits K df1 df2 poly = Except.ok (h1, p1, h2, p2) →
      (processFace K df1 df2 "symmetric_difference" poly = Except.ok none ↔
        processFace K df1 df2 "intersection" poly ≠ Except.ok none)) := by
  constructor
  · decide
  · intro G K df1 df2 poly h1 h2 p1 p2 hfh
    rw [processFace_skip_iff K df1 df2 "symmetric_difference" poly h1 h2 p1 p2 hfh, Ne,
      processFace_skip_iff K df1 df2 "intersection" poly h1 h2 p1 p2 hfh]
    cases h1 <;> cases h2 <;> decide

/-- C7 witness: the concrete face whose scans hit layer1 only — included
by `symmetric_difference`, excluded by `intersection`. -/
theorem symmetric_difference_complements_intersection_witness :
    faceHits testKernel df1W df2W 3 =
      Except.ok (true, some [("index", Val.attr "i0"), ("geometry", Val.geom 3)], false, none) ∧
    (processFace testKernel df1W df2W "symmetric_difference" 3 = Except.ok none ↔
      processFace testKernel df1W df2W "intersection" 3 ≠ Except.ok none) :=
  ⟨rfl, symmetric_difference_complements_intersection.2 Nat testKernel df1W df2W 3 true false
    (some [("index", Val.attr "i0"), ("geometry", Val.geom 3)]) none rfl⟩

/-- When every row carries a geometry and some row's geometry has an
unsupported type, the feature loop fails with the unsupported-type
error. -/
theorem extractRingsList_unsupported {G : Type} (K : Kernel G) (rows : List (Row G))
    (hwf : ∀ r ∈ rows, rowHasGeom r = true)
    (hbad : ∃ r ∈ rows, rowGeomType K r = some GeomType.Other) :
    extractRingsList K rows = Except.error Err.unsupportedGeometryType := by
  induction rows with
  | nil =>
    obtain ⟨r, hr, _⟩ := hbad
    exact absurd hr (List.not_mem_nil r)
  | cons r rest ih =>
    obtain ⟨g, hg⟩ := (rowHasGeom_iff r).mp (hwf r (List.mem_cons_self r rest))
    by_cases hOther : K.geom_type g = GeomType.Other
    · have hfeat : extractRingsFeature K r = Except.error Err.unsupportedGeometryType := by
        unfold extractRingsFeature
        rw [hg]
        dsimp only
        rw [if_neg (by simp [hOther])]
      unfold extractRingsList
      rw [hfeat]
    · have ht : K.geom_type g = GeomType.Polygon ∨ K.geom_type g = GeomType.MultiPolygon := by
        cases htype : K.geom_type g
        · exact Or.inl rfl
        · exact Or.inr rfl
        · exact absurd htype hOther
      have hfeat := extractRingsFeature_typed K r g hg ht
      have hbadrest : ∃ x ∈ rest, rowGeomType K x = some GeomType.Other := by
        obtain ⟨rb, hrb, hb⟩ := hbad
        rcases List.mem_cons.mp hrb with heq | hmem
        · exfalso
          rw [heq] at hb
          unfold rowGeomType at hb
          rw [hg] at hb
          simp only [Option.some.injEq] at hb
          exact hOther hb
        · exact ⟨rb, hmem, hb⟩
      have hrest := ih (fun x hx => hwf x (List.mem_cons_of_mem r hx)) hbadrest
      unfold extractRingsList
      rw [hfeat, hrest]

/-- C3: `overlay` on any relation string outside the five recognized
values fails with the invalid-relation error, uniformly in both input
collections (they are never touched); on any of the five recognized values
that error can never be the outcome. -/
theorem overlay_invalid_relation_policy :
    (∀ (G : Type) (K : Kernel G) (df1 df2 : GeoDataFrame G) (how : String),
      how ∉ allowed_hows →
      overlay K df1 df2 how = Except.error Err.invalidRelation) ∧
    (∀ (G : Type) (K : Kernel G) (df1 df2 : GeoDataFrame G) (how : String),
      how ∈ allowed_hows →
      overlay K df1 df2 how ≠ Except.error Err.invalidRelation) := by
  constructor
  · intro G K df1 df2 how hmem
    unfold overlay
    rw [if_neg hmem]
  · intro G K df1 df2 how hmem h
    unfold overlay at h
    rw [if_pos hmem] at h
    split at h
    · next heq =>
      simp only [Except.error.injEq] at h
      rcases extractRingsList_error K df1.rows _ (h ▸ heq) with h2 | h2 <;> simp at h2
    · split at h
      · next heq =>
        simp only [Except.error.injEq] at h
        rcases extractRingsList_error K df2.rows _ (h ▸ heq) with h2 | h2 <;> simp at h2
      · split at h
        · next heq =>
          simp only [Except.error.injEq] at h
          have := (buildArrangement_error_eq K _ _ _ (h ▸ heq)).1
          simp at this
        · split at h
          · next heq =>
            simp only [Except.error.injEq] at h
            have := classifyFaces_error K df1 df2 how _ _ (h ▸ heq)
            simp at this
          · simp at h

/-- C3 witness: the unrecognized relation `"cut"` on concrete inputs. -/
theorem overlay_invalid_relation_policy_witness :
    "cut" ∉ allowed_hows ∧
    overlay testKernel df1W df2W "cut" = Except.error Err.invalidRelation :=
  ⟨by decide, overlay_invalid_relation_policy.1 Nat testKernel df1W df2W "cut" (by decide)⟩

/-- C4: ring extraction fails with the unsupported-geometry-type error
whenever some feature's geometry is neither polygon nor multi-polygon (and,
the result being a single `Except`, no partial output is produced); on a
collection whose features are all (possibly invalid, then repaired)
polygons or multi-polygons extraction succeeds, and a whole `overlay` run
over such collections can never produce that error. -/
theorem extract_unsupported_geometry_policy :
    (∀ (G : Type) (K : Kernel G) (df : GeoDataFrame G),
      (∀ r ∈ df.rows, rowHasGeom r = true) →
      (∃ r ∈ df.rows, rowGeomType K r = some GeomType.Other) →
      extract_rings K df = Except.error Err.unsupportedGeometryType) ∧
    (∀ (G : Type) (K : Kernel G) (df : GeoDataFrame G),
      dfPolyTyped K df = true → ∃ rings, extract_rings K df = Except.ok rings) ∧
    (∀ (G : Type) (K : Kernel G) (df1 df2 : GeoDataFrame G) (how : String),
      dfPolyTyped K df1 = true → dfPolyTyped K df2 = true →
      overlay K df1 df2 how ≠ Except.error Err.unsupportedGeometryType) := by
  refine ⟨?_, ?_, ?_⟩
  · intro G K df hwf hbad
    exact extractRingsList_unsupported K df.rows hwf hbad
  · intro G K df htyped
    exact ⟨_, extractRingsList_typed K df.rows (by simpa [dfPolyTyped] using htyped)⟩
  · intro G K df1 df2 how ht1 ht2 h
    unfold overlay at h
    split at h
    · split at h
      · next heq =>
        unfold extract_rings at heq
        rw [extractRingsList_typed K df1.rows (by simpa [dfPolyTyped] using ht1)] at heq
        simp at heq
      · split at h
        · next heq =>
          unfold extract_rings at heq
          rw [extractRingsList_typed K df2.rows (by simpa [dfPolyTyped] using ht2)] at heq
          simp at heq
        · split at h
          · next heq =>
            simp only [Except.error.injEq] at h
            have := (buildArrangement_error_eq K _ _ _ (h ▸ heq)).1
            simp at this
          · split at h
            · next heq =>
              simp only [Except.error.injEq] at h
              have := classifyFaces_error K df1 df2 how _ _ (h ▸ heq)
              simp at this
            · simp at h
    · simp at h

/-- C4 witness: a collection whose single feature carries the
non-polygonal geometry `7` of the `Nat` kernel. -/
theorem extract_unsupported_geometry_policy_witness :
    (∀ r ∈ dfBadW.rows, rowHasGeom r = true) ∧
    (∃ r ∈ dfBadW.rows, rowGeomType testKernel r = some GeomType.Other) ∧
    extract_rings testKernel dfBadW = Except.error Err.unsupportedGeometryType :=
  ⟨by decide, by decide,
    extract_unsupported_geometry_policy.1 Nat testKernel dfBadW (by decide) (by decide)⟩

/-- C6: on a valid input collection (all features polygon- or
multi-polygon-typed) ring extraction succeeds and returns exactly the flat
ordered ring sequence of the spec: features in collection order, each
multi-polygon's constituent polygons in order, each polygon repaired by the
zero-buffer primitive when invalid and contributing its exterior ring
followed by its interior rings. -/
theorem extract_rings_flat_order :
    (∀ (G : Type) (K : Kernel G) (p : G), K.is_valid p = true →
      polygonRings K p = K.exterior p :: K.interiors p) ∧
    (∀ (G : Type) (K : Kernel G) (p : G), K.is_valid p = false →
      polygonRings K p = K.exterior (K.buffer0 p) :: K.interiors (K.buffer0 p)) ∧
    (∀ (G : Type) (K : Kernel G) (df : GeoDataFrame G),
      dfPolyTyped K df = true →
      extract_rings K df = Except.ok (extractRingsSpec K df)) := by
  refine ⟨?_, ?_, ?_⟩
  · intro G K p hv
    simp [polygonRings, hv]
  · intro G K p hv
    simp [polygonRings, hv]
  · intro G K df htyped
    exact extractRingsList_typed K df.rows (by simpa [dfPolyTyped] using htyped)

/-- C6 witness: the concrete layer1, whose extraction yields the single
exterior ring of its polygon. -/
theorem extract_rings_flat_order_witness :
    dfPolyTyped testKernel df1W = true ∧
    extract_rings testKernel df1W = Except.ok (extractRingsSpec testKernel df1W) ∧
    extractRingsSpec testKernel df1W = [3] :=
  ⟨by decide, extract_rings_flat_order.2.2 Nat testKernel df1W (by decide), by decide⟩

/-- C8: assembly drops layer1's geometry column from the concatenated
record (the mandatory first drop, here assumed to find its label) and then
layer2's geometry column only if present: with the label absent after the
first drop — e.g. both layers sharing the geometry column name — the
second drop is skipped without error and assembly still returns the
finished row. -/
theorem assemble_geometry_drop_policy :
    ∀ (G : Type) (df1 df2 : GeoDataFrame G) (p1 p2 : Option (Row G)) (poly : G),
      (concatProps df1 df2 p1 p2).any (fun p => p.1 == df1.geometryColumnName) = true →
      (∃ row, assembleCandidate df1 df2 p1 p2 poly = Except.ok row) ∧
      (((concatProps df1 df2 p1 p2).filter (fun p => p.1 ≠ df1.geometryColumnName)).any
          (fun p => p.1 == df2.geometryColumnName) = false →
        assembleCandidate df1 df2 p1 p2 poly = Except.ok
          (seriesSet
            ((concatProps df1 df2 p1 p2).filter (fun p => p.1 ≠ df1.geometryColumnName))
            "geometry" (Val.geom poly))) := by
  intro G df1 df2 p1 p2 poly hany
  have hdrop1 : seriesDrop (gatherProps df1 p1 ++ gatherProps df2 p2) df1.geometryColumnName =
      Except.ok ((concatProps df1 df2 p1 p2).filter (fun p => p.1 ≠ df1.geometryColumnName)) := by
    unfold seriesDrop
    rw [if_pos (by exact hany)]
    rfl
  constructor
  · unfold assembleCandidate
    rw [hdrop1]
    exact ⟨_, rfl⟩
  · intro habs
    have hdrop2 : seriesDrop
        ((concatProps df1 df2 p1 p2).filter (fun p => p.1 ≠ df1.geometryColumnName))
        df2.geometryColumnName = Except.error Err.otherError := by
      unfold seriesDrop
      rw [if_neg (by simp only [habs]; exact Bool.false_ne_true)]
    unfold assembleCandidate
    rw [hdrop1]
    dsimp only
    rw [hdrop2]

/-- C8 witness: both layers use the geometry column name `geometry`, so
the second drop's label is already gone after the first drop. -/
theorem assemble_geometry_drop_policy_witness :
    (concatProps df1W df2W (some df1W.rows.head!) none).any
      (fun p => p.1 == df1W.geometryColumnName) = true ∧
    ((concatProps df1W df2W (some df1W.rows.head!) none).filter
      (fun p => p.1 ≠ df1W.geometryColumnName)).any
      (fun p => p.1 == df2W.geometryColumnName) = false ∧
    assembleCandidate df1W df2W (some df1W.rows.head!) none 3 = Except.ok
      (seriesSet
        ((concatProps df1W df2W (some df1W.rows.head!) none).filter
          (fun p => p.1 ≠ df1W.geometryColumnName))
        "geometry" (Val.geom 3)) :=
  ⟨by decide, by decide,
    (assemble_geometry_drop_policy Nat df1W df2W (some df1W.rows.head!) none 3
      (by decide)).2 (by decide)⟩

/-- Replacing the repair primitive does not change the rings of an already
valid polygon. -/
theorem polygonRings_setBuffer {G : Type} (K : Kernel G) (b : G → G) (p : G)
    (hv : K.is_valid p = true) :
    polygonRings (setBuffer K b) p = polygonRings K p := by
  unfold polygonRings setBuffer
  simp [hv]

/-- Replacing the repair primitive does not change the rings of a list of
already valid polygons. -/
theorem flatMap_polygonRings_setBuffer {G : Type} (K : Kernel G) (b : G → G)
    (l : List G) (hv : ∀ p ∈ l, K.is_valid p = true) :
    l.flatMap (polygonRings (setBuffer K b)) = l.flatMap (polygonRings K) := by
  induction l with
  | nil => rfl
  | cons p rest ih =>
    rw [List.flatMap_cons, List.flatMap_cons,
      polygonRings_setBuffer K b p (hv p (List.mem_cons_self p rest)),
      ih (fun x hx => hv x (List.mem_cons_of_mem p hx))]

/-- The repair-replaced kernel classifies geometry types unchanged. -/
theorem setBuffer_geom_type {G : Type} (K : Kernel G) (b : G → G) :
    (setBuffer K b).geom_type = K.geom_type := rfl

/-- The repair-replaced kernel decomposes multi-polygons unchanged. -/
theorem setBuffer_geoms {G : Type} (K : Kernel G) (b : G → G) :
    (setBuffer K b).geoms = K.geoms := rfl

/-- Replacing the repair primitive does not change the extraction of a
feature whose geometry is already valid. -/
theorem extractRingsFeature_setBuffer {G : Type} (K : Kernel G) (b : G → G) (r : Row G)
    (hv : ∀ g, rowGet r "geometry" = some (Val.geom g) → geomAllValid K g = true) :
    extractRingsFeature (setBuffer K b) r = extractRingsFeature K r := by
  unfold extractRingsFeature
  simp only [setBuffer_geom_type, setBuffer_geoms]
  split
  · next g heq =>
    have hvg := hv g heq
    unfold geomAllValid at hvg
    by_cases hpm : K.geom_type g = GeomType.Polygon ∨ K.geom_type g = GeomType.MultiPolygon
    · rw [if_pos hpm, if_pos hpm]
      by_cases hmp : K.geom_type g = GeomType.MultiPolygon
      · rw [if_pos hmp, if_pos hmp, flatMap_polygonRings_setBuffer K b (K.geoms g)
          (by rw [if_pos hmp] at hvg; simpa using hvg)]
      · rw [if_neg hmp, if_neg hmp, polygonRings_setBuffer K b g (by rwa [if_neg hmp] at hvg)]
    · rw [if_neg hpm, if_neg hpm]
  · rfl

/-- Replacing the repair primitive does not change the feature loop on a
collection of already valid geometries. -/
theorem extractRingsList_setBuffer {G : Type} (K : Kernel G) (b : G → G)
    (rows : List (Row G))
    (hv : ∀ r ∈ rows, ∀ g, rowGet r "geometry" = some (Val.geom g) → geomAllValid K g = true) :
    extractRingsList (setBuffer K b) rows = extractRingsList K rows := by
  induction rows with
  | nil => rfl
  | cons r rest ih =>
    unfold extractRingsList
    rw [extractRingsFeature_setBuffer K b r (hv r (List.mem_cons_self r rest)),
      ih (fun x hx => hv x (List.mem_cons_of_mem r hx))]

/-- C9: ring extraction is a pure function — running it twice on the same
unchanged input yields the same ring sequence — and on an already-valid
input it does not depend on the repair primitive at all (the zero-buffer
repair, modelled as a fresh-value-producing function as the collaborator
contract states, is never consulted), so no mutation of the source
geometries can occur through it. -/
theorem extract_rings_idempotent_repair_free :
    (∀ (G : Type) (K : Kernel G) (df : GeoDataFrame G),
      extract_rings K df = extract_rings K df) ∧
    (∀ (G : Type) (K : Kernel G) (b : G → G) (df : GeoDataFrame G),
      dfAllValid K df = true →
      extract_rings (setBuffer K b) df = extract_rings K df) := by
  constructor
  · intro G K df
    rfl
  · intro G K b df hv
    unfold extract_rings
    refine extractRingsList_setBuffer K b df.rows ?_
    intro r hr g hg
    have := List.all_eq_true.mp hv r hr
    rw [hg] at this
    exact this

/-- C9 witness: a replacement repair primitive leaves the extraction of
the valid concrete layer unchanged. -/
theorem extract_rings_idempotent_repair_free_witness :
    dfAllValid testKernel df1W = true ∧
    extract_rings (setBuffer testKernel (fun g => g + 1000)) df1W =
      extract_rings testKernel df1W :=
  ⟨by decide,
    extract_rings_idempotent_repair_free.2 Nat testKernel (fun g => g + 1000) df1W (by decide)⟩

/-- C10: the final cleanup (`reset_index()` then `drop('index', axis=1)`)
leaves no column named `index` in the output — any attribute column of
that name carried over from an input layer is dropped with the
materialized index — so whenever `index` belongs to a schema (e.g. the
union of the layers' non-geometry columns plus `geometry` for a layer
with an `index` attribute), the output schema cannot equal it. -/
theorem overlay_index_column_cleanup :
    (∀ (G : Type) (collection : List (Row G)),
      "index" ∉ (finalizeFrame collection).columns) ∧
    (∀ (G : Type) (collection : List (Row G)) (S : List String),
      "index" ∈ S → (finalizeFrame collection).columns ≠ S) ∧
    (∀ (G : Type) (K : Kernel G) (df1 df2 : GeoDataFrame G) (how : String)
      (gdf : GeoDataFrame G),
      overlay K df1 df2 how = Except.ok gdf → "index" ∉ gdf.columns) := by
  have hno : ∀ (G : Type) (collection : List (Row G)),
      "index" ∉ (finalizeFrame collection).columns := by
    intro G collection
    simp [finalizeFrame, List.mem_filter]
  refine ⟨hno, ?_, ?_⟩
  · intro G collection S hS hEq
    exact hno G collection (hEq ▸ hS)
  · intro G K df1 df2 how gdf h
    obtain ⟨collection, rfl⟩ := overlay_ok_finalize K df1 df2 how gdf h
    exact hno G collection

/-- C10 witness: a full concrete `overlay` run whose layer1 carries an
attribute column named `index`: the output drops it (and gains the
`level_0` remnant of `reset_index`). -/
theorem overlay_index_column_cleanup_witness :
    overlay testKernel df1W df2W "union" = Except.ok outW ∧
    "index" ∉ outW.columns ∧
    outW.columns = ["level_0", "b", "geometry"] :=
  ⟨by rfl,
    overlay_index_column_cleanup.2.2 Nat testKernel df1W df2W "union" outW (by rfl),
    rfl⟩

end GeoOverlay
